import Mathlib

/-!
Verification of the menu components of `src/solara/lab/components/menu.py`:
the three variants `ClickMenu` (popup at cursor), `ContextMenu` (right-click
popup) and `Menu` (anchored below the activator), their activator
normalization, and the reactive open/close binding they wire into the
underlying `MenuWidget` Vue component.
-/

namespace SolaraMenu

/-- An opaque UI-element handle (`solara.Element`).  The components never
inspect a handle, so it is modelled as an opaque identifier. -/
structure Element where
  id : Nat
deriving DecidableEq, Repr

/-- Modelled from the spec: `solara.Reactive[bool]` (the ReactiveBinding of
§4.1, defined outside `src/`), "wraps a boolean value so it can be read and
externally mutated"; modelled by its current value, with state passed
explicitly. -/
structure Reactive where
  value : Bool
deriving DecidableEq, Repr

/-- Modelled from the spec: `Reactive.set` (outside `src/`), the binding's
write operation: "`.set(newValue)` (write side effect)"; it replaces the
stored value, returned here as the new cell state. -/
def Reactive.set (_r : Reactive) (x : Bool) : Reactive := ⟨x⟩

/-- The `open` argument of the three components:
`Union[solara.Reactive[bool], bool]`. -/
inductive OpenArg where
  | reactive (r : Reactive)
  | raw (b : Bool)
deriving DecidableEq, Repr

/-- Modelled from the spec: `solara.use_reactive` (outside `src/`), §4.1:
"given either a raw boolean or an existing reactive boolean handle, produce a
handle ... If given a raw boolean, the binding is locally owned ... and
initialized to that value.  If given an existing handle, ownership is shared
with the caller". -/
def use_reactive : OpenArg → Reactive
  | .reactive r => r
  | .raw b => ⟨b⟩

/-- The `activator` argument of the three components:
`Union[solara.Element, List[solara.Element]]`. -/
inductive ActivatorArg where
  | single (e : Element)
  | list (es : List Element)
deriving DecidableEq, Repr

/-- The activator normalization performed identically by each variant
(`menu.py` lines 57-58, 106-107, 181-182):
`if not isinstance(activator, list): activator = [activator]`. -/
def normalize_activator : ActivatorArg → List Element
  | .single e => [e]
  | .list es => es

/-- The `style` argument: `Optional[Union[str, Dict[str, str]]]`. -/
inductive StyleArg where
  | noStyle
  | ofString (s : String)
  | ofDict (kvs : List (String × String))
deriving DecidableEq, Repr

/-- Modelled from the spec: the external StyleNormalizer collaborator
(`solara.util._flatten_style`, outside `src/`), §2: "converts a style
specification (string or key-value mapping) into a single string form".
A missing style is forwarded as no style. -/
def flatten_style : StyleArg → Option String
  | .noStyle => none
  | .ofString s => some s
  | .ofDict kvs => some (String.intercalate "; " (kvs.map fun kv => kv.1 ++ ": " ++ kv.2))

/-- The keyword arguments forwarded to the `MenuWidget` Vue component
(`menu.py` lines 7-18).  `on_show_menu` carries the callback wired to the open
binding's setter; with state passed explicitly the callback returns the new
cell state. -/
structure MenuWidgetConfig where
  activator : List Element
  show_menu : Bool
  on_show_menu : Option (Bool → Reactive)
  children : List Element
  style : Option String
  context : Bool
  use_absolute : Bool
  close_on_content_click : Bool

/-- `ClickMenu` (`menu.py` lines 21-66): popup menu at the cursor position.
Omitted `MenuWidget` keywords take that signature's defaults:
`context=False`, `use_absolute=True`, `close_on_content_click=True`. -/
def ClickMenu (activator : ActivatorArg) (open' : OpenArg)
    (children : List Element) (style : StyleArg) : MenuWidgetConfig :=
  let opn := use_reactive open'
  let style_flat := flatten_style style
  let act := normalize_activator activator
  { activator := act
    show_menu := opn.value
    on_show_menu := some opn.set
    children := children
    style := style_flat
    context := false
    use_absolute := true
    close_on_content_click := true }

/-- `ContextMenu` (`menu.py` lines 69-116): context (right-click) menu at the
cursor position; identical to `ClickMenu` except that it passes
`context=True`. -/
def ContextMenu (activator : ActivatorArg) (open' : OpenArg)
    (children : List Element) (style : StyleArg) : MenuWidgetConfig :=
  let opn := use_reactive open'
  let style_flat := flatten_style style
  let act := normalize_activator activator
  { activator := act
    show_menu := opn.value
    on_show_menu := some opn.set
    children := children
    style := style_flat
    context := true
    use_absolute := true
    close_on_content_click := true }

/-- The ConfigurationError of the spec's §7 error taxonomy:
`closeOnContentClick=false` combined with a locally-owned open state. -/
inductive ConfigurationError where
  | closeRequiresReactiveOpen
deriving DecidableEq, Repr

/-- `Menu` (`menu.py` lines 144-192): menu anchored below the activator.  The
runtime function body unconditionally builds the widget configuration and
passes `use_absolute=False` and the caller's `close_on_content_click`; the
`@overload` signatures (lines 119-141) are static type hints only and generate
no runtime check, so the function has no raise path.  The `Except` return type
makes that (absent) failure mode representable for comparison with the spec. -/
def Menu (activator : ActivatorArg) (open' : OpenArg) (close_on_content_click : Bool)
    (children : List Element) (style : StyleArg) :
    Except ConfigurationError MenuWidgetConfig :=
  let opn := use_reactive open'
  let style_flat := flatten_style style
  let act := normalize_activator activator
  Except.ok
    { activator := act
      show_menu := opn.value
      on_show_menu := some opn.set
      children := children
      style := style_flat
      context := false
      use_absolute := false
      close_on_content_click := close_on_content_click }

/-- Modelled from the spec: the configuration-validity rule of §4.3/§7 for the
anchored variant, stated in the spec's words for comparison with the source
`Menu` — "ConfigurationError is raised immediately during component setup"
when "`closeOnContentClick` is `false`" and `open` is "a raw boolean rather
than a caller-owned binding". -/
def Menu_spec (activator : ActivatorArg) (open' : OpenArg) (close_on_content_click : Bool)
    (children : List Element) (style : StyleArg) :
    Except ConfigurationError MenuWidgetConfig :=
  match open', close_on_content_click with
  | .raw _, false => .error .closeRequiresReactiveOpen
  | _, _ => Menu activator open' close_on_content_click children style

/-- Claim C1 (counterexample): constructing the anchored `Menu` with
`close_on_content_click = false` and the raw boolean `open = false` does NOT
fail at component setup — the source emits a configuration, while the
spec-modelled runtime check would raise ConfigurationError. -/
theorem menu_raw_open_no_configuration_error :
    (Menu (.single ⟨0⟩) (.raw false) false [] .noStyle).isOk = true ∧
    Menu_spec (.single ⟨0⟩) (.raw false) false [] .noStyle
      = .error .closeRequiresReactiveOpen := ⟨rfl, rfl⟩

/-- Claim C1 (amended): at runtime the anchored `Menu` with
`close_on_content_click = false` succeeds both with a raw boolean `open` and
with a caller-owned reactive binding; the reactive-`open` requirement lives
only in the static overload signatures and no ConfigurationError is ever
raised. -/
theorem menu_close_false_always_succeeds (a : ActivatorArg) (b : Bool)
    (r : Reactive) (ch : List Element) (st : StyleArg) :
    (Menu a (.raw b) false ch st).isOk = true ∧
    (Menu a (.reactive r) false ch st).isOk = true := ⟨rfl, rfl⟩

/-- Claim C2 (counterexample): normalization of the empty activator sequence
returns the empty sequence, so the result does not always have length ≥ 1. -/
theorem normalize_activator_empty_list :
    ¬ 1 ≤ (normalize_activator (.list [])).length := by decide

/-- Claim C2 (amended): a single handle is wrapped into a one-element
sequence, a sequence is returned unchanged with order preserved, and the
result has length ≥ 1 whenever the input is a single handle or a non-empty
sequence (an empty input sequence yields the empty sequence). -/
theorem normalize_activator_contract (e : Element) (S : List Element) (h : S ≠ []) :
    normalize_activator (.single e) = [e] ∧
    normalize_activator (.list S) = S ∧
    1 ≤ (normalize_activator (.single e)).length ∧
    1 ≤ (normalize_activator (.list S)).length := by
  refine ⟨rfl, rfl, by simp [normalize_activator], ?_⟩
  simpa [normalize_activator, Nat.succ_le_iff, List.length_pos] using h

/-- Witness for the amended C2 at concrete inputs. -/
theorem normalize_activator_contract_witness :
    normalize_activator (.single ⟨1⟩) = [⟨1⟩] ∧
    normalize_activator (.list [⟨2⟩]) = [⟨2⟩] ∧
    1 ≤ (normalize_activator (.single (⟨1⟩ : Element))).length ∧
    1 ≤ (normalize_activator (.list [(⟨2⟩ : Element)])).length :=
  normalize_activator_contract ⟨1⟩ [⟨2⟩] (by decide)

/-- Claim C3: `ClickMenu` with a single activator handle `A` and the default
`open = False` emits a configuration with `activator = [A]`,
`show_menu = false`, `context = false`, `use_absolute = true` and
`close_on_content_click = true`. -/
theorem clickmenu_single_default_config (A : Element) (ch : List Element) (st : StyleArg) :
    (ClickMenu (.single A) (.raw false) ch st).activator = [A] ∧
    (ClickMenu (.single A) (.raw false) ch st).show_menu = false ∧
    (ClickMenu (.single A) (.raw false) ch st).context = false ∧
    (ClickMenu (.single A) (.raw false) ch st).use_absolute = true ∧
    (ClickMenu (.single A) (.raw false) ch st).close_on_content_click = true :=
  ⟨rfl, rfl, rfl, rfl, rfl⟩

/-- Claim C4: `ContextMenu` with activator sequence `[A, B]` and `open = True`
emits a configuration with `activator = [A, B]`, `show_menu = true` and
`context = true`. -/
theorem contextmenu_pair_open_config (A B : Element) (ch : List Element) (st : StyleArg) :
    (ContextMenu (.list [A, B]) (.raw true) ch st).activator = [A, B] ∧
    (ContextMenu (.list [A, B]) (.raw true) ch st).show_menu = true ∧
    (ContextMenu (.list [A, B]) (.raw true) ch st).context = true :=
  ⟨rfl, rfl, rfl⟩

/-- Claim C5: the anchored `Menu` always succeeds and its configuration has
`use_absolute = false` and `close_on_content_click` equal to the
caller-supplied value; in particular the default `close_on_content_click =
true` with a raw `open = false` succeeds. -/
theorem menu_anchored_config (a : ActivatorArg) (o' : OpenArg) (c : Bool)
    (ch : List Element) (st : StyleArg) :
    (∃ cfg, Menu a o' c ch st = .ok cfg ∧
      cfg.use_absolute = false ∧ cfg.close_on_content_click = c) ∧
    (Menu a (.raw false) true ch st).isOk = true :=
  ⟨⟨_, rfl, rfl, rfl⟩, rfl⟩

/-- Claim C6: every variant wires `on_show_menu` to the open binding's setter
and `show_menu` to the binding's current value, and the setter satisfies the
read-after-write round-trip: writing `x` then reading yields `x`, in
particular writing `true` then reading yields `true` and subsequently writing
`false` then reading yields `false`. -/
theorem menu_show_roundtrip (a : ActivatorArg) (o' : OpenArg) (c : Bool)
    (ch : List Element) (st : StyleArg) (x : Bool) :
    (ClickMenu a o' ch st).on_show_menu = some (use_reactive o').set ∧
    (ClickMenu a o' ch st).show_menu = (use_reactive o').value ∧
    (ContextMenu a o' ch st).on_show_menu = some (use_reactive o').set ∧
    (ContextMenu a o' ch st).show_menu = (use_reactive o').value ∧
    (∃ cfg, Menu a o' c ch st = .ok cfg ∧
      cfg.on_show_menu = some (use_reactive o').set ∧
      cfg.show_menu = (use_reactive o').value) ∧
    ((use_reactive o').set x).value = x ∧
    ((use_reactive o').set true).value = true ∧
    (((use_reactive o').set true).set false).value = false :=
  ⟨rfl, rfl, rfl, rfl, ⟨_, rfl, rfl, rfl⟩, rfl, rfl, rfl⟩

/-- Claim C7: for every boolean `b`, a raw `open = b` produces a
locally-owned binding whose value is `b` immediately after construction, so
the first render's `show_menu` field equals `b` in every variant. -/
theorem raw_open_initial_value (b : Bool) (a : ActivatorArg) (c : Bool)
    (ch : List Element) (st : StyleArg) :
    (use_reactive (.raw b)).value = b ∧
    (ClickMenu a (.raw b) ch st).show_menu = b ∧
    (ContextMenu a (.raw b) ch st).show_menu = b ∧
    ∃ cfg, Menu a (.raw b) c ch st = .ok cfg ∧ cfg.show_menu = b :=
  ⟨rfl, rfl, rfl, _, rfl, rfl⟩

/-- Claim C8: the fragment is total — activator normalization and open-binding
construction are defined on every input, and the only operation with a
representable failure mode, the anchored `Menu`, always succeeds. -/
theorem fragment_total (a : ActivatorArg) (o' : OpenArg) (c : Bool)
    (ch : List Element) (st : StyleArg) :
    (Menu a o' c ch st).isOk = true ∧
    (∃ l, normalize_activator a = l) ∧
    (∃ r, use_reactive o' = r) :=
  ⟨rfl, ⟨_, rfl⟩, ⟨_, rfl⟩⟩

/-- Claim C9: activator normalization is idempotent — feeding its output back
in as a sequence input yields the same result. -/
theorem normalize_activator_idempotent (x : ActivatorArg) :
    normalize_activator (.list (normalize_activator x)) = normalize_activator x :=
  rfl

/-- Claim C10: on identical inputs, `ClickMenu` and `ContextMenu` emit
configurations identical in every field except `context` (false for the click
variant, true for the context variant); both always have
`use_absolute = true` and `close_on_content_click = true`. -/
theorem click_vs_context_config (a : ActivatorArg) (o' : OpenArg)
    (ch : List Element) (st : StyleArg) :
    (ClickMenu a o' ch st).activator = (ContextMenu a o' ch st).activator ∧
    (ClickMenu a o' ch st).show_menu = (ContextMenu a o' ch st).show_menu ∧
    (ClickMenu a o' ch st).on_show_menu = (ContextMenu a o' ch st).on_show_menu ∧
    (ClickMenu a o' ch st).children = (ContextMenu a o' ch st).children ∧
    (ClickMenu a o' ch st).style = (ContextMenu a o' ch st).style ∧
    (ClickMenu a o' ch st).use_absolute = (ContextMenu a o' ch st).use_absolute ∧
    (ClickMenu a o' ch st).close_on_content_click
      = (ContextMenu a o' ch st).close_on_content_click ∧
    (ClickMenu a o' ch st).context = false ∧
    (ContextMenu a o' ch st).context = true ∧
    (ClickMenu a o' ch st).use_absolute = true ∧
    (ClickMenu a o' ch st).close_on_content_click = true :=
  ⟨rfl, rfl, rfl, rfl, rfl, rfl, rfl, rfl, rfl, rfl, rfl⟩

end SolaraMenu
